import Mathlib

/-!
# A verification model of `socks.py` (GunshipPenguin/socks)

This file shallowly embeds the single source file `socks.py`, a minimal
SOCKS4 proxy, and proves properties of the embedding.

Modelling conventions:
* A Python `bytes` buffer is a `List Nat` whose elements are below 256;
  theorems about wire buffers carry that bound as a hypothesis where it
  matters.
* `struct.pack('>BBHL', ...)` / `struct.unpack('>BBHL', ...)` are modelled
  by explicit big-endian arithmetic (`packBBHL` / `unpackBBHL`).  The call
  sites in `socks.py` only ever pack in-range values, for which the `% 256`
  normalisation below is the identity.
* I/O (socket operations, thread spawning) is modelled by explicit action
  traces: each handler is a pure function from its request data plus the
  outcome of its one external call (the outbound dial, or the stream of
  `select`/`recv` results) to the list of socket actions it performs, plus
  the exception it raises, if any.
* CPython socket semantics that matter here: `sock.send` on a socket on
  which `close()` has already been called raises `OSError` (EBADF) and
  transmits nothing; `sock.sendall` either writes the whole buffer or
  raises.  Both are modelled explicitly below.
-/

namespace Socks

/-! ## Module-level constants of `socks.py` -/

def BUFSIZE : Nat := 4096

def CONNECT_TIMEOUT : Nat := 20

/-- Version in server reply code (`VN = 0x00`). -/
def VN : Nat := 0x00

/-- Version number specified by clients (`CLIENT_VN = 0x04`). -/
def CLIENT_VN : Nat := 0x04

def REQUEST_TYPE_CONNECT : Nat := 0x01

def REQUEST_TYPE_BIND : Nat := 0x02

def CD_REQUEST_GRANTED : Nat := 90

def CD_REQUEST_REJECTED : Nat := 91

/-! ## `struct` big-endian packing, format `'>BBHL'`

`struct.pack('>BBHL', b1, b2, h, l)` produces 8 bytes: two single bytes,
one 16-bit and one 32-bit big-endian field.  `socks.py` only packs values
in range (`VN`, a reply code, a 16-bit port, a 32-bit address), where the
`% 256` below is the identity. -/

def packBBHL (b1 b2 h l : Nat) : List Nat :=
  [b1 % 256, b2 % 256,
   h / 256 % 256, h % 256,
   l / 2 ^ 24 % 256, l / 2 ^ 16 % 256, l / 2 ^ 8 % 256, l % 256]

/-- `struct.unpack('>BBHL', data[:8])`: read the two bytes, the big-endian
16-bit and the big-endian 32-bit fields from the first 8 bytes. -/
def unpackBBHL (data : List Nat) : Nat × Nat × Nat × Nat :=
  (data.getD 0 0, data.getD 1 0,
   data.getD 2 0 * 256 + data.getD 3 0,
   data.getD 4 0 * 2 ^ 24 + data.getD 5 0 * 2 ^ 16 +
     data.getD 6 0 * 2 ^ 8 + data.getD 7 0)

/-! ## `ClientRequest` -/

/-- The fields a `ClientRequest` carries once the buffer is long enough to
be parsed (`len(data) >= 9`).  `dst_ip` is kept as the unpacked 32-bit
number; `socks.py` stores its dotted-quad rendering
(`ipaddress.IPv4Address(dst_ip).exploded`), a bijection on `[0, 2^32)`
used only as the dial target. -/
structure ParsedRequest where
  invalid : Bool
  cd : Nat
  dst_port : Nat
  dst_ip : Nat
  userid : List Nat
deriving Repr, DecidableEq

/-- `ClientRequest.__init__`: a buffer shorter than 9 bytes sets
`invalid = True` and returns before any other field is assigned
(`tooShort`); otherwise all fields are assigned (`ok`). -/
inductive ClientRequest where
  | tooShort : ClientRequest
  | ok : ParsedRequest → ClientRequest
deriving Repr, DecidableEq

/-- `ClientRequest.__init__(data)`.  Mirrors `socks.py` lines 31–59:
short-buffer early return, `'>BBHL'` unpack of `data[:8]`, the version and
command validity checks, and `userid = data[8:-1]` (start at index 8, stop
before the final byte). -/
def ClientRequest.init (data : List Nat) : ClientRequest :=
  if data.length < 9 then
    ClientRequest.tooShort
  else
    match unpackBBHL data with
    | (vn, cd, dst_port, dst_ip) =>
      ClientRequest.ok
        { invalid := vn != CLIENT_VN ||
            (cd != REQUEST_TYPE_CONNECT && cd != REQUEST_TYPE_BIND)
          cd := cd
          dst_port := dst_port
          dst_ip := dst_ip
          userid := (data.drop 8).dropLast }

/-- `ClientRequest.isInvalid`: `self.invalid`, which is `True` on the
short-buffer early return. -/
def ClientRequest.isInvalid : ClientRequest → Bool
  | ClientRequest.tooShort => true
  | ClientRequest.ok r => r.invalid

/-- A Python `bytes` buffer: every element is below 256. -/
def IsBytes (data : List Nat) : Prop := ∀ b ∈ data, b < 256

instance (data : List Nat) : Decidable (IsBytes data) := by
  unfold IsBytes; infer_instance

example : (ClientRequest.init [4, 1, 0x1F, 0x90, 127, 0, 0, 1, 0]).isInvalid
    = false := by decide

example : (ClientRequest.init [4, 1, 0x1F, 0x90, 127, 0, 0]).isInvalid
    = true := by decide

example : (ClientRequest.init [3, 1, 0x1F, 0x90, 127, 0, 0, 1, 0]).isInvalid
    = true := by decide

example : (ClientRequest.init [4, 3, 0x1F, 0x90, 127, 0, 0, 1, 0]).isInvalid
    = true := by decide

/-! ## `SocksProxy._build_reply` -/

/-- `SocksProxy._build_reply(cd, dst_port, dst_ip)`:
`struct.pack('>BBHL', VN, cd, dst_port, dst_ip)`.  The Python defaults
(`dst_port=0x0000`, `dst_ip=0x000000`) are written out explicitly at the
call sites below, exactly as Python fills them in. -/
def build_reply (cd dst_port dst_ip : Nat) : List Nat :=
  packBBHL VN cd dst_port dst_ip

example : build_reply CD_REQUEST_REJECTED 0 0 = [0, 91, 0, 0, 0, 0, 0, 0] := by
  decide

example : build_reply CD_REQUEST_GRANTED 0 0 = [0, 90, 0, 0, 0, 0, 0, 0] := by
  decide

/-! ## Per-connection handlers as action traces

Each handler is modelled as a pure function producing the list of socket
actions it performs, paired with the exception that escapes it (`none` when
it returns normally).  The only external nondeterminism in
`_process_connect_request` is the outcome of the single
`serverConn.connect` call, passed in as a `DialResult`. -/

/-- Exceptions (all subclasses of `Exception`) that the per-connection code
can raise. -/
inductive PyExc where
  /-- `OSError` (`EBADF`), raised by `send` on an already-closed socket. -/
  | osError : PyExc
  /-- A dial failure other than `socket.timeout`, e.g.
  `ConnectionRefusedError` or `OSError` (host unreachable). -/
  | connectError : PyExc
deriving Repr, DecidableEq

/-- Outcome of the one `serverConn.connect((dst_ip, dst_port))` call. -/
inductive DialResult where
  | success : DialResult
  /-- `socket.timeout` after `CONNECT_TIMEOUT` seconds. -/
  | timeout : DialResult
  /-- Any other failure: connection refused, host unreachable, ... -/
  | failure : DialResult
deriving Repr, DecidableEq

/-- Observable socket actions of one connection handler. -/
inductive Action where
  /-- Bytes actually transmitted to the client by a successful
  `clientConn.send`. -/
  | sendClient : List Nat → Action
  /-- `clientConn.close()` -/
  | closeClient : Action
  /-- `socket.socket(AF_INET, SOCK_STREAM)` for the outbound leg, with
  `settimeout(CONNECT_TIMEOUT)`. -/
  | newServerSocket : Action
  /-- `serverConn.connect((dst_ip, dst_port))` is attempted. -/
  | connectAttempt : Nat → Nat → Action
  /-- `serverConn.close()` -/
  | closeServer : Action
  /-- The `_forward_connection` daemon thread is started. -/
  | startRelay : Action
deriving Repr, DecidableEq

/-- CPython socket semantics: `send` on an open socket transmits the whole
buffer (`some bytes`); `send` after `close()` raises `OSError` (EBADF) and
transmits nothing (`none`). -/
def sendOn (isOpen : Bool) (bytes : List Nat) : Option (List Nat) :=
  if isOpen then some bytes else none

/-- `SocksProxy._process_connect_request` (lines 99–115), as the trace of
actions it performs and the exception escaping it.  The Python control
flow, per dial outcome:

* `success`: the `try` body completes; line 111 sends the GRANTED reply
  (with the `_build_reply` defaults `dst_port=0, dst_ip=0`) on the still
  open client socket, and lines 113–115 start the relay thread.
* `timeout`: the `except socket.timeout` block (lines 105–109) closes the
  outbound socket, sends the REJECTED reply and closes the client socket.
  There is no `return`, so control falls through to line 111 — but
  `clientConn` is closed by then, so that `send` raises `OSError` and
  neither a GRANTED reply nor the relay start is reached.
* `failure`: any other exception from `connect` is not caught and escapes
  immediately. -/
def process_connect_request (dst_port dst_ip : Nat) (dial : DialResult) :
    List Action × Option PyExc :=
  -- lines 100–101
  let acts := [Action.newServerSocket, Action.connectAttempt dst_ip dst_port]
  match dial with
  | DialResult.failure =>
      -- line 104 raises something other than socket.timeout: uncaught
      (acts, some PyExc.connectError)
  | DialResult.success =>
      -- line 111 on the open client socket, then lines 113–115
      match sendOn true (build_reply CD_REQUEST_GRANTED 0 0) with
      | some b => (acts ++ [Action.sendClient b, Action.startRelay], none)
      | none => (acts, some PyExc.osError)
  | DialResult.timeout =>
      -- lines 107–109
      let acts := acts ++ [Action.closeServer,
        Action.sendClient (build_reply CD_REQUEST_REJECTED 0 0),
        Action.closeClient]
      -- fall-through to line 111, on the now-closed client socket
      match sendOn false (build_reply CD_REQUEST_GRANTED 0 0) with
      | some b => (acts ++ [Action.sendClient b, Action.startRelay], none)
      | none => (acts, some PyExc.osError)

/-- `SocksProxy._process_bind_request` (lines 117–120): reply REJECTED and
close the client connection. -/
def process_bind_request : List Action × Option PyExc :=
  ([Action.sendClient (build_reply CD_REQUEST_REJECTED 0 0),
    Action.closeClient], none)

/-- `SocksProxy._process_request` (lines 122–134): decode, reject invalid
requests, and dispatch CONNECT vs everything else (i.e. BIND, the only
other valid command) to the two handlers. -/
def process_request (data : List Nat) (dial : DialResult) :
    List Action × Option PyExc :=
  match ClientRequest.init data with
  | ClientRequest.tooShort =>
      -- lines 126–129 (`isInvalid()` is true on the short path)
      ([Action.sendClient (build_reply CD_REQUEST_REJECTED 0 0),
        Action.closeClient], none)
  | ClientRequest.ok r =>
      if r.invalid then
        ([Action.sendClient (build_reply CD_REQUEST_REJECTED 0 0),
          Action.closeClient], none)
      else if r.cd = REQUEST_TYPE_CONNECT then
        process_connect_request r.dst_port r.dst_ip dial
      else
        process_bind_request

/-! ## The listener loop body (`SocksProxy.start`, lines 80–94)

One iteration accepts a connection, reads once, and calls
`_process_request` inside `try`.  `except KeyboardInterrupt` closes the
listening socket and exits with status 0; `except Exception` prints the
exception, closes the listening socket and exits with status 1.  Only a
normally-returning iteration reaches the next `accept`. -/

/-- What one iteration of the `while True` loop in `start` does next,
given what the body raised (`KeyboardInterrupt` is not an `Exception`
subclass and gets its own constructor). -/
inductive LoopRaise where
  | nothing : LoopRaise
  | keyboardInterrupt : LoopRaise
  | exc : PyExc → LoopRaise
deriving Repr, DecidableEq

inductive LoopOutcome where
  /-- Loop continues to the next `accept`. -/
  | continueLoop : LoopOutcome
  /-- `s.close(); sys.exit(0)` -/
  | exitZero : LoopOutcome
  /-- `print(e); s.close(); sys.exit(1)` -/
  | exitOne : LoopOutcome
deriving Repr, DecidableEq

/-- One iteration of the listener loop, as a function of what the body
(accept/recv/`_process_request`) raised. -/
def start_iteration : LoopRaise → LoopOutcome
  | LoopRaise.nothing => LoopOutcome.continueLoop
  | LoopRaise.keyboardInterrupt => LoopOutcome.exitZero
  | LoopRaise.exc _ => LoopOutcome.exitOne

/-! ## The relay engine (`SocksProxy._forward_connection`, lines 140–165)

The loop's external inputs are the results of `select.select` and of the
`recv` calls on the sockets it reports ready.  We flatten them into one
event stream: an error set reported by `select`, or one `recv` outcome on
one of the two sockets (`src` is the client socket, `dest` the outbound
one).  The loop consumes events in order until the first terminating one.

The termination paths all call `_close_all([src, dest])` — with no `self.`
prefix.  `_close_all` is a method of `SocksProxy`, not a module-level name,
and Python does not put the enclosing class body in a method's name lookup
chain, so that call raises `NameError` and the two `close()` calls inside
`_close_all` never run.  The model records this as a `raiseNameError`
action with no closes. -/

/-- One external event seen by the relay loop. -/
inductive RelayEvent where
  /-- `select.select` returned a non-empty error set. -/
  | errSet : RelayEvent
  /-- `src.recv(BUFSIZE)` returned this data (`[]` is EOF). -/
  | readSrc : List Nat → RelayEvent
  /-- `dest.recv(BUFSIZE)` returned this data (`[]` is EOF). -/
  | readDst : List Nat → RelayEvent
  /-- `src.recv` raised `ConnectionResetError`. -/
  | resetSrc : RelayEvent
  /-- `dest.recv` raised `ConnectionResetError`. -/
  | resetDst : RelayEvent
deriving Repr, DecidableEq

/-- Observable actions of the relay loop. -/
inductive RelayAction where
  /-- `dest.sendall(data)`: the whole buffer is written (CPython `sendall`
  either writes everything or raises). -/
  | sendToDst : List Nat → RelayAction
  /-- `src.sendall(data)` -/
  | sendToSrc : List Nat → RelayAction
  /-- `src.close()` was executed. -/
  | closeSrc : RelayAction
  /-- `dest.close()` was executed. -/
  | closeDst : RelayAction
  /-- The bare name `_close_all` failed to resolve: `NameError` escapes
  the thread; no `close()` runs. -/
  | raiseNameError : RelayAction
deriving Repr, DecidableEq

/-- `SocksProxy._forward_connection(src, dest)` over an event stream.  An
empty stream means the loop is still blocked in `select`; the model stops
there with no further action. -/
def forward_connection : List RelayEvent → List RelayAction
  | [] => []
  | RelayEvent.errSet :: _ =>
      -- lines 145–147: `if err: _close_all([src, dest]); return`
      [RelayAction.raiseNameError]
  | RelayEvent.resetSrc :: _ => [RelayAction.raiseNameError]
  | RelayEvent.resetDst :: _ => [RelayAction.raiseNameError]
  | RelayEvent.readSrc [] :: _ =>
      -- lines 157–160: `if not data: _close_all([src, dest]); return`
      [RelayAction.raiseNameError]
  | RelayEvent.readDst [] :: _ => [RelayAction.raiseNameError]
  | RelayEvent.readSrc (b :: bs) :: rest =>
      -- lines 162–163: `if s is src: dest.sendall(data)`
      RelayAction.sendToDst (b :: bs) :: forward_connection rest
  | RelayEvent.readDst (b :: bs) :: rest =>
      -- lines 164–165: `else: src.sendall(data)`
      RelayAction.sendToSrc (b :: bs) :: forward_connection rest

/-- `SocksProxy._close_all(socks)` (lines 136–138) as it would behave if it
were actually reached: close every socket in the list.  Included for
reference; `forward_connection` never manages to call it. -/
def close_all_actions : List RelayAction := [RelayAction.closeSrc, RelayAction.closeDst]

/-- Whether an event makes the loop terminate (error set, reset, or EOF). -/
def RelayEvent.terminates : RelayEvent → Bool
  | RelayEvent.errSet => true
  | RelayEvent.resetSrc => true
  | RelayEvent.resetDst => true
  | RelayEvent.readSrc d => d.isEmpty
  | RelayEvent.readDst d => d.isEmpty

/-- The prefix of the event stream the loop actually consumes: everything
up to and including the first terminating event. -/
def consumed : List RelayEvent → List RelayEvent
  | [] => []
  | e :: rest => if e.terminates then [e] else e :: consumed rest

/-- Project an action trace to its forwarded chunks, tagged with the
direction (`true` = client-to-destination). -/
def sends : List RelayAction → List (Bool × List Nat)
  | [] => []
  | RelayAction.sendToDst d :: r => (true, d) :: sends r
  | RelayAction.sendToSrc d :: r => (false, d) :: sends r
  | _ :: r => sends r

/-- Project an event stream to its successful non-empty reads, tagged with
the direction they should be forwarded in (`true` = read from the client,
hence client-to-destination). -/
def nonemptyReads : List RelayEvent → List (Bool × List Nat)
  | [] => []
  | RelayEvent.readSrc (b :: bs) :: r => (true, b :: bs) :: nonemptyReads r
  | RelayEvent.readDst (b :: bs) :: r => (false, b :: bs) :: nonemptyReads r
  | _ :: r => nonemptyReads r

example :
    forward_connection [RelayEvent.readSrc [1, 2], RelayEvent.readDst [3],
      RelayEvent.readDst []] =
    [RelayAction.sendToDst [1, 2], RelayAction.sendToSrc [3],
      RelayAction.raiseNameError] := by decide

/-- The byte chunks a handler trace transmits to the client, in order. -/
def clientSends : List Action → List (List Nat)
  | [] => []
  | Action.sendClient b :: r => b :: clientSends r
  | _ :: r => clientSends r

/-! ## Helper lemmas -/

/-- Under the validity conditions for a CONNECT request, `_process_request`
reduces to `_process_connect_request` on the unpacked port and address. -/
theorem process_request_eq_connect (data : List Nat) (dial : DialResult)
    (h9 : 9 ≤ data.length) (hv : data.getD 0 0 = 4) (hc : data.getD 1 0 = 1) :
    process_request data dial =
      process_connect_request (data.getD 2 0 * 256 + data.getD 3 0)
        (data.getD 4 0 * 2 ^ 24 + data.getD 5 0 * 2 ^ 16 +
          data.getD 6 0 * 2 ^ 8 + data.getD 7 0) dial := by
  unfold process_request ClientRequest.init unpackBBHL
  rw [if_neg (by omega)]
  simp only [List.getD_eq_getElem?_getD] at hv hc
  simp [hv, hc, CLIENT_VN, REQUEST_TYPE_CONNECT, REQUEST_TYPE_BIND]

/-- Under the validity conditions for a BIND request, `_process_request`
reduces to `_process_bind_request`. -/
theorem process_request_eq_bind (data : List Nat) (dial : DialResult)
    (h9 : 9 ≤ data.length) (hv : data.getD 0 0 = 4) (hc : data.getD 1 0 = 2) :
    process_request data dial = process_bind_request := by
  unfold process_request ClientRequest.init unpackBBHL
  rw [if_neg (by omega)]
  simp only [List.getD_eq_getElem?_getD] at hv hc
  simp [hv, hc, CLIENT_VN, REQUEST_TYPE_CONNECT, REQUEST_TYPE_BIND]

/-! ## Claim theorems -/

/-- C2: decoding yields an invalid `ClientRequest` if and only if the
buffer is shorter than 9 bytes, or byte 0 (version) is not 4, or byte 1
(command) is not in {1, 2}; every other buffer of length ≥ 9 decodes as
valid, whatever its port and address bytes hold. -/
theorem C2_invalid_iff (data : List Nat) (hb : IsBytes data) :
    (ClientRequest.init data).isInvalid = true ↔
      data.length < 9 ∨ data.getD 0 0 ≠ 4 ∨
        (data.getD 1 0 ≠ 1 ∧ data.getD 1 0 ≠ 2) := by
  unfold ClientRequest.init unpackBBHL
  split
  · rename_i h
    simp [ClientRequest.isInvalid, h]
  · rename_i h
    simp only [ClientRequest.isInvalid, h, false_or, CLIENT_VN,
      REQUEST_TYPE_CONNECT, REQUEST_TYPE_BIND]
    simp [Bool.or_eq_true, Bool.and_eq_true, bne_iff_ne]

/-- C2, witnessed at the 9-byte CONNECT request to 127.0.0.1:8080. -/
theorem C2_invalid_iff_witness :
    (ClientRequest.init [4, 1, 31, 144, 127, 0, 0, 1, 0]).isInvalid = true ↔
      ([4, 1, 31, 144, 127, 0, 0, 1, 0] : List Nat).length < 9 ∨
        ([4, 1, 31, 144, 127, 0, 0, 1, 0] : List Nat).getD 0 0 ≠ 4 ∨
        (([4, 1, 31, 144, 127, 0, 0, 1, 0] : List Nat).getD 1 0 ≠ 1 ∧
          ([4, 1, 31, 144, 127, 0, 0, 1, 0] : List Nat).getD 1 0 ≠ 2) :=
  C2_invalid_iff [4, 1, 31, 144, 127, 0, 0, 1, 0] (by decide)

/-- C10: the decoder never looks for a NUL terminator: any buffer of
length ≥ 9 whose version byte is 4 and whose command byte is 1 or 2
decodes as valid, and the userid is always bytes 8 through `len - 2` (the
final byte is dropped unconditionally, whatever its value). -/
theorem C10_no_nul_check (data : List Nat) (hb : IsBytes data)
    (h9 : 9 ≤ data.length) (hv : data.getD 0 0 = 4)
    (hc : data.getD 1 0 = 1 ∨ data.getD 1 0 = 2) :
    (ClientRequest.init data).isInvalid = false ∧
      ∃ r, ClientRequest.init data = ClientRequest.ok r ∧
        r.userid = (data.take (data.length - 1)).drop 8 := by
  have huid : (data.drop 8).dropLast = (data.take (data.length - 1)).drop 8 := by
    rw [List.dropLast_eq_take, List.length_drop, List.take_drop]
    congr 2
    omega
  unfold ClientRequest.init unpackBBHL ClientRequest.isInvalid
  rw [if_neg (by omega)]
  refine ⟨?_, ⟨_, rfl, huid⟩⟩
  simp only [List.getD_eq_getElem?_getD] at hv hc
  rcases hc with hc | hc <;>
    simp [CLIENT_VN, REQUEST_TYPE_CONNECT, REQUEST_TYPE_BIND, hv, hc]

/-- C10, witnessed at an 11-byte buffer that holds no NUL byte anywhere:
it decodes as valid and its userid is bytes 8..9 (`[65, 66]`). -/
theorem C10_no_nul_check_witness :
    (ClientRequest.init [4, 2, 31, 144, 127, 9, 9, 1, 65, 66, 67]).isInvalid
        = false ∧
      ∃ r, ClientRequest.init [4, 2, 31, 144, 127, 9, 9, 1, 65, 66, 67] =
          ClientRequest.ok r ∧
        r.userid = (([4, 2, 31, 144, 127, 9, 9, 1, 65, 66, 67] : List Nat).take
          (([4, 2, 31, 144, 127, 9, 9, 1, 65, 66, 67] : List Nat).length - 1)).drop 8 :=
  C10_no_nul_check [4, 2, 31, 144, 127, 9, 9, 1, 65, 66, 67]
    (by decide) (by decide) (by decide) (by decide)

/-- C7: for every 16-bit port and 32-bit address, the GRANTED reply is
exactly 8 bytes and its big-endian `B, B, H, L` fields decode back to
`(version 0, code 90, the port, the address)`. -/
theorem C7_reply_roundtrip (P A : Nat) (hP : P < 2 ^ 16) (hA : A < 2 ^ 32) :
    (build_reply CD_REQUEST_GRANTED P A).length = 8 ∧
      unpackBBHL (build_reply CD_REQUEST_GRANTED P A) = (0, 90, P, A) := by
  unfold build_reply packBBHL unpackBBHL VN CD_REQUEST_GRANTED
  refine ⟨rfl, ?_⟩
  simp only [List.getD_eq_getElem?_getD, List.getElem?_cons_zero,
    List.getElem?_cons_succ, Option.getD_some]
  rw [Prod.mk.injEq, Prod.mk.injEq, Prod.mk.injEq]
  exact ⟨by norm_num, by norm_num, by omega, by omega⟩

/-- C7, witnessed at port 8080 and address 127.0.0.1 (`0x7F000001`). -/
theorem C7_reply_roundtrip_witness :
    (build_reply CD_REQUEST_GRANTED 8080 2130706433).length = 8 ∧
      unpackBBHL (build_reply CD_REQUEST_GRANTED 8080 2130706433) =
        (0, 90, 8080, 2130706433) :=
  C7_reply_roundtrip 8080 2130706433 (by decide) (by decide)

/-- C1: on a CONNECT request whose dial times out, exactly one reply — the
REJECTED reply `00 5B 0000 00000000` — is transmitted to the client, the
outbound socket and the client connection are closed, no GRANTED reply is
ever transmitted, and no relay task starts.  (The handler then falls
through to the unconditional GRANTED `send`, but the client socket is
already closed, so that `send` raises `OSError` before transmitting
anything; the exception escapes the handler.) -/
theorem C1_timeout_single_reject (data : List Nat)
    (h9 : 9 ≤ data.length) (hv : data.getD 0 0 = 4) (hc : data.getD 1 0 = 1) :
    clientSends (process_request data DialResult.timeout).1 =
        [[0, 91, 0, 0, 0, 0, 0, 0]] ∧
      Action.closeServer ∈ (process_request data DialResult.timeout).1 ∧
      Action.closeClient ∈ (process_request data DialResult.timeout).1 ∧
      Action.startRelay ∉ (process_request data DialResult.timeout).1 ∧
      (process_request data DialResult.timeout).2 = some PyExc.osError := by
  rw [process_request_eq_connect data DialResult.timeout h9 hv hc]
  simp [process_connect_request, sendOn, clientSends, build_reply, packBBHL,
    VN, CD_REQUEST_REJECTED, CD_REQUEST_GRANTED]

/-- C1, witnessed at Scenario 2's request `04 01 1F90 00000000 00`. -/
theorem C1_timeout_single_reject_witness :
    clientSends (process_request [4, 1, 31, 144, 0, 0, 0, 0, 0]
          DialResult.timeout).1 = [[0, 91, 0, 0, 0, 0, 0, 0]] ∧
      Action.closeServer ∈
        (process_request [4, 1, 31, 144, 0, 0, 0, 0, 0] DialResult.timeout).1 ∧
      Action.closeClient ∈
        (process_request [4, 1, 31, 144, 0, 0, 0, 0, 0] DialResult.timeout).1 ∧
      Action.startRelay ∉
        (process_request [4, 1, 31, 144, 0, 0, 0, 0, 0] DialResult.timeout).1 ∧
      (process_request [4, 1, 31, 144, 0, 0, 0, 0, 0] DialResult.timeout).2 =
        some PyExc.osError :=
  C1_timeout_single_reject [4, 1, 31, 144, 0, 0, 0, 0, 0]
    (by decide) (by decide) (by decide)

/-- C3 fails on the code: for Scenario 1's request (CONNECT to
127.0.0.1:8080) with a successful dial, the GRANTED reply transmitted is
`00 5A 0000 00000000`, not the echoed `00 5A 1F90 7F000001` the claim
requires — `_build_reply` is called with its zero defaults on line 111. -/
theorem C3_counterexample :
    (process_request [4, 1, 31, 144, 127, 0, 0, 1, 0] DialResult.success).1 =
        [Action.newServerSocket, Action.connectAttempt 2130706433 8080,
          Action.sendClient [0, 90, 0, 0, 0, 0, 0, 0], Action.startRelay] ∧
      Action.sendClient [0, 90, 31, 144, 127, 0, 0, 1] ∉
        (process_request [4, 1, 31, 144, 127, 0, 0, 1, 0] DialResult.success).1 := by
  decide

/-- C3 as amended: for every valid CONNECT request whose dial succeeds,
the one reply transmitted to the client is the GRANTED reply with zero
port and address fields, `00 5A 0000 00000000`, whatever the request's
destination; the relay is then started and the handler returns normally. -/
theorem C3_granted_zero_fields (data : List Nat)
    (h9 : 9 ≤ data.length) (hv : data.getD 0 0 = 4) (hc : data.getD 1 0 = 1) :
    clientSends (process_request data DialResult.success).1 =
        [[0, 90, 0, 0, 0, 0, 0, 0]] ∧
      Action.startRelay ∈ (process_request data DialResult.success).1 ∧
      (process_request data DialResult.success).2 = none := by
  rw [process_request_eq_connect data DialResult.success h9 hv hc]
  simp [process_connect_request, sendOn, clientSends, build_reply, packBBHL,
    VN, CD_REQUEST_GRANTED]

/-- C3's amended claim, witnessed at Scenario 1's request. -/
theorem C3_granted_zero_fields_witness :
    clientSends (process_request [4, 1, 31, 144, 127, 0, 0, 1, 0]
          DialResult.success).1 = [[0, 90, 0, 0, 0, 0, 0, 0]] ∧
      Action.startRelay ∈
        (process_request [4, 1, 31, 144, 127, 0, 0, 1, 0] DialResult.success).1 ∧
      (process_request [4, 1, 31, 144, 127, 0, 0, 1, 0] DialResult.success).2 =
        none :=
  C3_granted_zero_fields [4, 1, 31, 144, 127, 0, 0, 1, 0]
    (by decide) (by decide) (by decide)

/-- C6 fails on the code: a dial failure other than `socket.timeout`
(connection refused, host unreachable) is not caught, so for Scenario 1's
request with a refused dial no reply at all is transmitted, neither socket
is closed, and the exception escapes the handler. -/
theorem C6_counterexample :
    clientSends (process_request [4, 1, 31, 144, 127, 0, 0, 1, 0]
        DialResult.failure).1 = [] ∧
      Action.closeServer ∉
        (process_request [4, 1, 31, 144, 127, 0, 0, 1, 0] DialResult.failure).1 ∧
      Action.closeClient ∉
        (process_request [4, 1, 31, 144, 127, 0, 0, 1, 0] DialResult.failure).1 ∧
      (process_request [4, 1, 31, 144, 127, 0, 0, 1, 0] DialResult.failure).2 =
        some PyExc.connectError := by
  decide

/-- C6 as amended: only a dial timeout is answered with the REJECTED
reply, after which both sockets are closed and nothing is retried (the
fall-through GRANTED `send` raises `OSError` on the closed client socket);
every other dial failure escapes the handler as an uncaught exception with
no reply transmitted and no socket explicitly closed. -/
theorem C6_dial_failure_paths (data : List Nat)
    (h9 : 9 ≤ data.length) (hv : data.getD 0 0 = 4) (hc : data.getD 1 0 = 1) :
    (clientSends (process_request data DialResult.timeout).1 =
          [[0, 91, 0, 0, 0, 0, 0, 0]] ∧
        Action.closeServer ∈ (process_request data DialResult.timeout).1 ∧
        Action.closeClient ∈ (process_request data DialResult.timeout).1) ∧
      (clientSends (process_request data DialResult.failure).1 = [] ∧
        Action.closeServer ∉ (process_request data DialResult.failure).1 ∧
        Action.closeClient ∉ (process_request data DialResult.failure).1 ∧
        (process_request data DialResult.failure).2 = some PyExc.connectError) := by
  rw [process_request_eq_connect data DialResult.timeout h9 hv hc,
    process_request_eq_connect data DialResult.failure h9 hv hc]
  simp [process_connect_request, sendOn, clientSends, build_reply, packBBHL,
    VN, CD_REQUEST_REJECTED, CD_REQUEST_GRANTED]

/-- C6's amended claim, witnessed at Scenario 2's request. -/
theorem C6_dial_failure_paths_witness :
    (clientSends (process_request [4, 1, 31, 144, 0, 0, 0, 0, 0]
            DialResult.timeout).1 = [[0, 91, 0, 0, 0, 0, 0, 0]] ∧
        Action.closeServer ∈
          (process_request [4, 1, 31, 144, 0, 0, 0, 0, 0] DialResult.timeout).1 ∧
        Action.closeClient ∈
          (process_request [4, 1, 31, 144, 0, 0, 0, 0, 0] DialResult.timeout).1) ∧
      (clientSends (process_request [4, 1, 31, 144, 0, 0, 0, 0, 0]
            DialResult.failure).1 = [] ∧
        Action.closeServer ∉
          (process_request [4, 1, 31, 144, 0, 0, 0, 0, 0] DialResult.failure).1 ∧
        Action.closeClient ∉
          (process_request [4, 1, 31, 144, 0, 0, 0, 0, 0] DialResult.failure).1 ∧
        (process_request [4, 1, 31, 144, 0, 0, 0, 0, 0] DialResult.failure).2 =
          some PyExc.connectError) :=
  C6_dial_failure_paths [4, 1, 31, 144, 0, 0, 0, 0, 0]
    (by decide) (by decide) (by decide)

/-- C9: every valid BIND request is answered with the single REJECTED
reply `00 5B 0000 00000000` and the client connection is closed; no
outbound socket is ever created or dialled, whatever the dial oracle
would have answered. -/
theorem C9_bind_rejected (data : List Nat) (dial : DialResult)
    (h9 : 9 ≤ data.length) (hv : data.getD 0 0 = 4) (hc : data.getD 1 0 = 2) :
    process_request data dial =
      ([Action.sendClient [0, 91, 0, 0, 0, 0, 0, 0], Action.closeClient],
        none) := by
  rw [process_request_eq_bind data dial h9 hv hc]
  simp [process_bind_request, build_reply, packBBHL, VN, CD_REQUEST_REJECTED]

/-- C9, witnessed at Scenario 4's request `04 02 1F90 7F000001 00`. -/
theorem C9_bind_rejected_witness :
    process_request [4, 2, 31, 144, 127, 0, 0, 1, 0] DialResult.success =
      ([Action.sendClient [0, 91, 0, 0, 0, 0, 0, 0], Action.closeClient],
        none) :=
  C9_bind_rejected [4, 2, 31, 144, 127, 0, 0, 1, 0] DialResult.success
    (by decide) (by decide) (by decide)

/-- C5 fails on the code: an exception scoped to one client's request —
here the uncaught dial failure of Scenario 1's request — makes the
listener loop's `except Exception` branch close the listening socket and
exit with status 1 instead of continuing to accept. -/
theorem C5_counterexample :
    (process_request [4, 1, 31, 144, 127, 0, 0, 1, 0] DialResult.failure).2 =
        some PyExc.connectError ∧
      start_iteration (LoopRaise.exc PyExc.connectError) = LoopOutcome.exitOne ∧
      LoopOutcome.exitOne ≠ LoopOutcome.continueLoop := by
  decide

/-- C5 as amended: the listener loop keeps accepting only when an
iteration completes without an exception; any exception raised while
handling one client's request makes the loop close the listening socket
and exit with status 1 (`KeyboardInterrupt` exits with status 0). -/
theorem C5_exception_exits_listener :
    start_iteration LoopRaise.nothing = LoopOutcome.continueLoop ∧
      (∀ e : PyExc, start_iteration (LoopRaise.exc e) = LoopOutcome.exitOne) ∧
      start_iteration LoopRaise.keyboardInterrupt = LoopOutcome.exitZero := by
  refine ⟨rfl, ?_, rfl⟩
  intro e
  cases e <;> rfl

/-- C4 fails on the code: every termination path of the relay loop calls
`_close_all([src, dest])` without the `self.` prefix, which raises
`NameError` before any `close()` runs — shown here at a graceful EOF from
the destination socket, and in general: no relay trace ever contains a
`close` action. -/
theorem C4_close_never_executes :
    forward_connection [RelayEvent.readDst []] = [RelayAction.raiseNameError] ∧
      ∀ events : List RelayEvent,
        RelayAction.closeSrc ∉ forward_connection events ∧
        RelayAction.closeDst ∉ forward_connection events := by
  refine ⟨rfl, ?_⟩
  intro events
  induction events with
  | nil => simp [forward_connection]
  | cons e rest ih =>
    cases e with
    | errSet => simp [forward_connection]
    | resetSrc => simp [forward_connection]
    | resetDst => simp [forward_connection]
    | readSrc d =>
      cases d with
      | nil => simp [forward_connection]
      | cons b bs => simpa [forward_connection] using ih
    | readDst d =>
      cases d with
      | nil => simp [forward_connection]
      | cons b bs => simpa [forward_connection] using ih

/-- C8: within one relay, the chunks forwarded (each by a full-write
`sendall`) are exactly the successful non-empty reads the loop consumed,
with the matching direction, in the order they were read. -/
theorem C8_forward_in_order (events : List RelayEvent) :
    sends (forward_connection events) = nonemptyReads (consumed events) := by
  induction events with
  | nil => rfl
  | cons e rest ih =>
    cases e with
    | errSet => rfl
    | resetSrc => rfl
    | resetDst => rfl
    | readSrc d =>
      cases d with
      | nil => rfl
      | cons b bs =>
        simp [forward_connection, consumed, RelayEvent.terminates, sends,
          nonemptyReads, ih]
    | readDst d =>
      cases d with
      | nil => rfl
      | cons b bs =>
        simp [forward_connection, consumed, RelayEvent.terminates, sends,
          nonemptyReads, ih]
